import Mathlib

/-!
Verification of the Property-Search dashboard's data-aggregation layer.

The Python sources (services/flood_service.py, services/property_service.py,
services/crime_service.py, services/location_service.py, utils/data_fetcher.py)
are shallowly embedded below.  Conventions used throughout:

* Python floats are modelled as exact rationals (`ℚ`); the claims under
  verification only exercise values on which float and rational arithmetic
  agree.
* Network effects are abstracted by oracles: a function from the request data
  the code varies (pagination offset, month string, attempt index) to the
  decoded response `make_request` / `requests.get` would have produced.
* A Python function that can raise an uncaught exception is embedded with an
  `Option` result, `none` standing for the exception escaping.
* JSON dictionaries are embedded as structures; `dict.get` with a default is
  `Option.getD`; a JSON object of unknown shape relevant only through a few
  keys becomes an inductive with one constructor per shape the code
  distinguishes.
-/

namespace PropertySearch

/-! ### flood_service.point_in_polygon (src/services/flood_service.py:275-291) -/

/-- One iteration of the ray-casting loop in `point_in_polygon`.

The state carries the Python local `xinters` (`none` while it has never been
assigned) together with the `inside` flag.  The result is `none` exactly when
the iteration would read `xinters` before any assignment (a Python
`NameError`): that happens when the three guarding conditions hold, `p1x ≠ p2x`
(so the `or` does not short-circuit) and no assignment has occurred. -/
def pipStep (x y p1x p1y p2x p2y : ℚ) (st : Option ℚ × Bool) :
    Option (Option ℚ × Bool) :=
  let xo := st.1
  let inside := st.2
  if y > min p1y p2y ∧ y ≤ max p1y p2y ∧ x ≤ max p1x p2x then
    let xo' := if p1y ≠ p2y then some ((y - p1y) * (p2x - p1x) / (p2y - p1y) + p1x)
               else xo
    if p1x = p2x then some (xo', !inside)
    else
      match xo' with
      | some v => some (xo', if x ≤ v then !inside else inside)
      | none => none
  else
    some (xo, inside)

/-- The successive `(p1, p2)` vertex pairs visited by `point_in_polygon`'s loop:
`p2` ranges over `polygon[i % n]` for `i = 0 .. n` (so over
`polygon ++ [polygon[0]]`), while `p1` lags one step behind, starting at
`polygon[0]`.  (The first pair is the degenerate `(polygon[0], polygon[0])`.) -/
def pipEdges : List (ℚ × ℚ) → List ((ℚ × ℚ) × (ℚ × ℚ))
  | [] => []
  | v0 :: rest => List.zip (v0 :: v0 :: rest) ((v0 :: rest) ++ [v0])

/-- `point_in_polygon(point, polygon)` (flood_service.py:275).  `none` models an
uncaught exception: indexing `polygon[0]` of an empty list, or the `NameError`
of `pipStep`. -/
def point_in_polygon (p : ℚ × ℚ) (poly : List (ℚ × ℚ)) : Option Bool :=
  match poly with
  | [] => none
  | _ :: _ =>
    (List.foldlM (fun st e => pipStep p.1 p.2 e.1.1 e.1.2 e.2.1 e.2.2 st)
      ((none : Option ℚ), false) (pipEdges poly)).map (·.2)

/-! ### flood_service: zone containment and risk description
(src/services/flood_service.py:293-388) -/

/-- A GeoJSON geometry value as `check_point_in_flood_zones` discriminates it:
a `Polygon` is a list of rings, a `MultiPolygon` a list of polygons (each a
list of rings); any other `type` value falls into `other` and is skipped. -/
inductive Geometry where
  | polygon (rings : List (List (ℚ × ℚ)))
  | multiPolygon (polys : List (List (List (ℚ × ℚ))))
  | other
deriving DecidableEq

/-- A feature of the zone-geometry response.  `floodZone` is
`properties.flood_zone` with the missing-key default `""`; `geometry` is
`none` when the feature's `geometry` value is missing or falsy (the code's
truthiness filter), `some .other` when present but of an unrecognized shape. -/
structure Feature where
  floodZone : String
  geometry : Option Geometry
deriving DecidableEq

/-- The inner ring loop of `check_point_in_flood_zones` for a `Polygon`
geometry: test each ring and stop at the first containing one.  A `none` from
`point_in_polygon` (uncaught exception) propagates. -/
def scanRings (p : ℚ × ℚ) : List (List (ℚ × ℚ)) → Option Bool
  | [] => some false
  | r :: rs =>
    match point_in_polygon p r with
    | none => none
    | some true => some true
    | some false => scanRings p rs

/-- The nested loops of `check_point_in_flood_zones` for a `MultiPolygon`:
the source's `break` only leaves the ring loop, so every polygon of the
multipolygon is scanned even after a hit (the flag, once set, stays set). -/
def scanPolygons (p : ℚ × ℚ) : List (List (List (ℚ × ℚ))) → Option Bool
  | [] => some false
  | poly :: rest =>
    match scanRings p poly with
    | none => none
    | some b =>
      match scanPolygons p rest with
      | none => none
      | some b' => some (b || b')

/-- Whether one feature's geometry contains the point, exactly as the body of
the feature loops in `check_point_in_flood_zones` computes it; features with a
missing or unrecognized geometry never match. -/
def featureHit (p : ℚ × ℚ) (f : Feature) : Option Bool :=
  match f.geometry with
  | some (.polygon rings) => scanRings p rings
  | some (.multiPolygon polys) => scanPolygons p polys
  | _ => some false

/-- One zone's feature loop: scan features in order, stopping at the first
hit (the source's `if in_zone_3: break` / `if in_zone_2: break`). -/
def scanFeatures (p : ℚ × ℚ) : List Feature → Option Bool
  | [] => some false
  | f :: fs =>
    match featureHit p f with
    | none => none
    | some true => some true
    | some false => scanFeatures p fs

/-- All rings of a feature's geometry, for stating containment
specifications: the rings of a `Polygon`, the flattened rings of a
`MultiPolygon`, nothing otherwise. -/
def ringsOf (f : Feature) : List (List (ℚ × ℚ)) :=
  match f.geometry with
  | some (.polygon rings) => rings
  | some (.multiPolygon polys) => polys.join
  | _ => []

/-- The flood-data dictionary as `check_point_in_flood_zones` reads it
(`flood_data.get('flood_zone_3', [])` / `...('flood_zone_2', [])`). -/
structure ZoneData where
  flood_zone_2 : List Feature
  flood_zone_3 : List Feature
deriving DecidableEq

/-- `check_point_in_flood_zones(longitude, latitude, flood_data)`
(flood_service.py:293): Zone 3 features are scanned first; Zone 2 features are
scanned only when the point is in no Zone 3 feature.  The pair is
`(in_zone_2, in_zone_3)`; `none` models an exception escaping from
`point_in_polygon`. -/
def check_point_in_flood_zones (longitude latitude : ℚ) (fd : ZoneData) :
    Option (Bool × Bool) :=
  let p := (longitude, latitude)
  match scanFeatures p fd.flood_zone_3 with
  | none => none
  | some in_zone_3 =>
    if in_zone_3 then some (false, true)
    else
      match scanFeatures p fd.flood_zone_2 with
      | none => none
      | some in_zone_2 => some (in_zone_2, false)

/-- The result dictionary of `get_flood_risk_description`. -/
structure RiskDescription where
  title : String
  text : String
  risk_level : String
deriving DecidableEq

/-- The Zone 3 result of `get_flood_risk_description`. -/
def highRisk : RiskDescription where
  title := "High Flood Risk (Flood Zone 3)"
  text := "This location is within a high flood risk area (1% or greater annual probability of river flooding, or 0.5% or greater annual probability of sea flooding). Properties at this location have a high probability of flooding."
  risk_level := "high"

/-- The Zone 2 result of `get_flood_risk_description`. -/
def mediumRisk : RiskDescription where
  title := "Medium Flood Risk (Flood Zone 2)"
  text := "This area has a medium probability of flooding (between 0.1% and 1% annual probability of river flooding, or between 0.1% and 0.5% annual probability of sea flooding). Properties in this zone have a medium probability of flooding."
  risk_level := "medium"

/-- The Zone 1 (neither zone) result of `get_flood_risk_description`. -/
def lowRisk : RiskDescription where
  title := "Low Flood Risk (Flood Zone 1)"
  text := "This area has a low probability of flooding (less than 0.1% annual probability). Properties in this zone have a low probability of flooding."
  risk_level := "low"

/-- `get_flood_risk_description(flood_data, longitude, latitude)`
(flood_service.py:344). -/
def get_flood_risk_description (fd : ZoneData) (longitude latitude : ℚ) :
    Option RiskDescription :=
  match check_point_in_flood_zones longitude latitude fd with
  | none => none
  | some z =>
    let in_zone_2 := z.1
    let in_zone_3 := z.2
    some (if in_zone_3 then highRisk else if in_zone_2 then mediumRisk else lowRisk)

/-! ### flood_service.get_flood_data and its sub-fetches
(src/services/flood_service.py:33-273)

The HTTP layer is abstracted by oracles giving, for each request the code
issues, the decoded dictionary `make_request` returned.  `make_request` always
returns a dictionary (it catches its own exceptions), so the shapes the
callers distinguish are: a dictionary with the expected collection key, a
dictionary with an `"error"` key (and no collection key), or anything else. -/

/-- A `make_request` response as the zone-geometry pagination loop reads it:
either it has a `"features"` key (a list of features) or it does not (the
error dictionaries produced by `make_request` carry only `"error"` and
`"details"`). -/
inductive ZoneResponse where
  | features (fs : List Feature)
  | error (msg : String)
deriving DecidableEq

/-- The pagination `while True:` loop of `get_flood_data`
(flood_service.py:60-73), with the page limit fixed at the source's 10000.
The oracle maps the `offset` parameter to the response.  A response without a
(nonempty) `"features"` key — in particular any error response — breaks the
loop, keeping the features accumulated so far.  `fuel` bounds the number of
iterations; `none` models non-termination within the given fuel. -/
def fetchPages (oracle : Nat → ZoneResponse) :
    Nat → Nat → List Feature → Option (List Feature)
  | 0, _, _ => none
  | fuel + 1, offset, acc =>
    match oracle offset with
    | .error _ => some acc
    | .features [] => some acc
    | .features fs =>
      if fs.length < 10000 then some (acc ++ fs)
      else fetchPages oracle fuel (offset + fs.length) (acc ++ fs)

/-- A `make_request` response as `get_flood_warnings` and
`get_nearby_flood_monitoring_stations` read it: an `"error"` key wins, then an
`"items"` key; a dictionary with neither behaves like an empty item list. -/
inductive ItemsResponse (α : Type) where
  | error (msg : String)
  | items (xs : List α)
  | neither

/-- A raw warning item.  Items that are not dictionaries are dropped by the
source and are not represented.  `floodArea` is `none` when the `"floodArea"`
value is present but not a dictionary (the item is skipped), `some none` when
it is missing or a dictionary without a `"county"` key (county defaults to
`""`), and `some (some c)` when it carries a county. -/
structure RawWarning where
  severity : Option String
  severityLevel : Option Int
  description : Option String
  eaAreaName : Option String
  floodArea : Option (Option String)
  message : Option String
  timeRaised : Option String
  timeMessageChanged : Option String
deriving DecidableEq

/-- A processed warning as `get_flood_warnings` builds it. -/
structure WarningOut where
  severity : String
  severity_level : Int
  description : String
  area : String
  county : String
  message : String
  time_raised : String
  time_updated : String
deriving DecidableEq

/-- The per-item mapping of `get_flood_warnings`'s item loop
(flood_service.py:165-188); `none` when the item is skipped because its
`floodArea` is not a dictionary. -/
def mapWarning (w : RawWarning) : Option WarningOut :=
  match w.floodArea with
  | none => none
  | some county? =>
    some { severity := w.severity.getD "Unknown"
           severity_level := w.severityLevel.getD 0
           description := w.description.getD "No description available"
           area := w.eaAreaName.getD "Unknown area"
           county := county?.getD ""
           message := w.message.getD ""
           time_raised := w.timeRaised.getD ""
           time_updated := w.timeMessageChanged.getD "" }

/-- The value stored under `"flood_warnings"` in the bundle: either the
success dictionary `{count, warnings}` or the error dictionary
`{"error": ...}` that `get_flood_warnings` forwards. -/
inductive WarningsValue where
  | ok (count : Nat) (warnings : List WarningOut)
  | err (msg : String)
deriving DecidableEq

/-- `get_flood_warnings` (flood_service.py:135-200) given the decoded
response of its single `make_request` call.  Its `except` branch is
unreachable here: no modelled operation raises. -/
def get_flood_warnings (resp : ItemsResponse RawWarning) : WarningsValue :=
  match resp with
  | .error msg => .err msg
  | .neither => .ok 0 []
  | .items xs =>
    let warnings := xs.filterMap mapWarning
    .ok warnings.length warnings

/-- A latest-reading dictionary nested in a station's measure; field values
are modelled as strings (only presence and pass-through matter here). -/
structure RawReading where
  value : Option String
  dateTime : Option String
deriving DecidableEq

/-- A measure item of a station; `latestReading` is `none` when the measure
has no `"latestReading"` key. -/
structure RawMeasure where
  latestReading : Option RawReading
  parameterName : Option String
deriving DecidableEq

/-- A raw station item of the monitoring-stations response. -/
structure RawStation where
  label : Option String
  riverName : Option String
  stationType : Option String
  status : Option String
  distance : Option String
  measures : List RawMeasure
deriving DecidableEq

/-- A processed latest reading as the station loop builds it. -/
structure ReadingOut where
  value : String
  date : String
  parameter : String
deriving DecidableEq

/-- A processed station as `get_nearby_flood_monitoring_stations` builds it. -/
structure StationOut where
  name : String
  river : String
  type : String
  status : String
  distance_km : String
  latest_reading : Option ReadingOut
deriving DecidableEq

/-- The first measure carrying a `latestReading`, mapped as the source's inner
measure loop maps it (flood_service.py:243-251). -/
def firstReading : List RawMeasure → Option ReadingOut
  | [] => none
  | m :: ms =>
    match m.latestReading with
    | some r =>
      some { value := r.value.getD "N/A"
             date := r.dateTime.getD "N/A"
             parameter := m.parameterName.getD "Unknown parameter" }
    | none => firstReading ms

/-- The per-station mapping of the station loop (flood_service.py:235-261). -/
def mapStation (s : RawStation) : StationOut where
  name := s.label.getD "Unknown station"
  river := s.riverName.getD "Unknown river"
  type := s.stationType.getD "Unknown type"
  status := s.status.getD "Unknown status"
  distance_km := s.distance.getD "Unknown distance"
  latest_reading := firstReading s.measures

/-- The value stored under `"flood_metrics"` in the bundle. -/
inductive StationsValue where
  | ok (count : Nat) (stations : List StationOut)
  | err (msg : String)
deriving DecidableEq

/-- `get_nearby_flood_monitoring_stations` (flood_service.py:202-273) given
the decoded response of its single `make_request` call. -/
def get_nearby_flood_monitoring_stations (resp : ItemsResponse RawStation) :
    StationsValue :=
  match resp with
  | .error msg => .err msg
  | .neither => .ok 0 []
  | .items xs =>
    let stations := xs.map mapStation
    .ok stations.length stations

/-- The success dictionary returned by `get_flood_data`. -/
structure FloodBundle where
  flood_zone_2 : List Feature
  flood_zone_3 : List Feature
  flood_warnings : WarningsValue
  flood_metrics : StationsValue
  center_latitude : ℚ
  center_longitude : ℚ
  radius_km : ℚ
deriving DecidableEq

/-- The result of `get_flood_data`: the success bundle, or the `except`
branch's top-level `{"error": ...}` dictionary.  The latter is produced only
when a Python exception escapes the body; no modelled operation raises. -/
inductive FloodDataResult where
  | bundle (b : FloodBundle)
  | topError (msg : String)
deriving DecidableEq

/-- `get_flood_data(latitude, longitude, radius_km)` (flood_service.py:33-133)
with the network abstracted: `pageOracle` maps each pagination offset to the
zone-geometry response, `warnResp` and `stationResp` are the responses of the
warnings and stations fetches.  The bounding-box computation only affects the
request parameters, which the oracle already abstracts.  `none` models the
pagination loop running beyond `fuel` iterations. -/
def get_flood_data (pageOracle : Nat → ZoneResponse)
    (warnResp : ItemsResponse RawWarning) (stationResp : ItemsResponse RawStation)
    (latitude longitude radius_km : ℚ) (fuel : Nat) : Option FloodDataResult :=
  match fetchPages pageOracle fuel 0 [] with
  | none => none
  | some all_features =>
    let fz2 := all_features.filter (fun f =>
      f.floodZone == "FZ2" || f.floodZone == "2")
    let fz3 := all_features.filter (fun f =>
      !(f.floodZone == "FZ2" || f.floodZone == "2") &&
        (f.floodZone == "FZ3" || f.floodZone == "3"))
    let flood_zone_2 := fz2.filter (fun f => f.geometry.isSome)
    let flood_zone_3 := fz3.filter (fun f => f.geometry.isSome)
    some (.bundle
      { flood_zone_2 := flood_zone_2
        flood_zone_3 := flood_zone_3
        flood_warnings := get_flood_warnings warnResp
        flood_metrics := get_nearby_flood_monitoring_stations stationResp
        center_latitude := latitude
        center_longitude := longitude
        radius_km := radius_km })

/-- A concrete two-zone bundle for instantiating the zone-precedence theorem:
the same square ring appears both as a Zone 2 and as a Zone 3 feature. -/
def overlapZoneData : ZoneData where
  flood_zone_2 := [⟨"FZ2", some (.polygon [[(0, 0), (0, 10), (10, 10), (10, 0)]])⟩]
  flood_zone_3 := [⟨"FZ3", some (.polygon [[(0, 0), (0, 10), (10, 10), (10, 0)]])⟩]

/-! ### property_service.get_uk_house_price_index
(src/services/property_service.py:24-291) -/

/-- A calendar date as `datetime.strptime(date_str, '%Y-%m')` /
`strftime('%Y-%m-%d')` handle it.  Entry date strings are modelled by the
parsed triple (formatting a valid date is injective, so string equality on
formatted dates coincides with triple equality); `datetime` ordering and
`timedelta` arithmetic go through `toDays`. -/
structure Date where
  year : Int
  month : Nat
  day : Nat
deriving DecidableEq

/-- The day number of a proleptic-Gregorian date (days since 1970-01-01, the
civil-from-date algorithm); `datetime` comparison and subtraction reduce to
this value since all times here are midnight. -/
def Date.toDays (d : Date) : Int :=
  let y : Int := if d.month ≤ 2 then d.year - 1 else d.year
  let era : Int := Int.fdiv y 400
  let yoe : Int := y - era * 400
  let mp : Int := if d.month ≤ 2 then (d.month : Int) + 9 else (d.month : Int) - 3
  let doy : Int := Int.fdiv (153 * mp + 2) 5 + (d.day : Int) - 1
  let doe : Int := yoe * 365 + Int.fdiv yoe 4 - Int.fdiv yoe 100 + doy
  era * 146097 + doe - 719468

/-- Python's builtin `round` to an integer: nearest integer, ties to the even
one.  Expressed on the numerator and denominator (with `fraction < 1/2` as
`2 * (num - floor * den) < den`, valid since `den > 0`) so that it evaluates
by kernel reduction. -/
def pythonRound (q : ℚ) : Int :=
  let f := ⌊q⌋
  let num2 := 2 * (q.num - f * (q.den : Int))
  if num2 < (q.den : Int) then f
  else if (q.den : Int) < num2 then f + 1
  else if f % 2 = 0 then f else f + 1

/-- Python's `round(x, 2)`: nearest multiple of 1/100, ties to even. -/
def pythonRound2 (q : ℚ) : ℚ :=
  (pythonRound (q * 100) : ℚ) / 100

/-- One element of the accumulated `price_data` list.
`percentage_annual_change` is `none` when the key is never added. -/
structure PriceEntry where
  date : Date
  property_type : String
  average_price : Int
  percentage_annual_change : Option ℚ
deriving DecidableEq

/-- One property-type channel block of `get_uk_house_price_index`'s row loop
(property_service.py:153-171 for the Average channel; the other four blocks
are verbatim copies with their own type string): the channel is skipped when
its price is not positive; otherwise the candidate is appended unless
`next(...)` finds an accumulated entry with the same date and property type
whose stored rounded price DIFFERS from the candidate's rounded price. -/
def addPriceEntry (acc : List PriceEntry) (d : Date) (ptype : String)
    (price : ℚ) (pct : Option ℚ) : List PriceEntry :=
  if 0 < price then
    let existing_entry := acc.find? (fun item =>
      decide (item.date = d) && decide (item.property_type = ptype) &&
        decide (item.average_price ≠ pythonRound price))
    if existing_entry.isNone then
      acc ++ [{ date := d, property_type := ptype,
                average_price := pythonRound price,
                percentage_annual_change := pct.map pythonRound2 }]
    else acc
  else acc

/-- One SPARQL result row as the row loop reads it: optional per-channel
prices (`float(...)` of the binding when the variable is bound, else the
code's `0` sentinel, modelled by `Option.getD 0` at use sites) and optional
per-channel annual changes.  Rows model bindings whose `refMonth` parses as
`%Y-%m` (a malformed month would make the later `strptime('%Y-%m-%d')` raise
into the function's `except` branch, outside the claims considered here). -/
structure HpiRow where
  date : Date
  averagePrice : Option ℚ
  detachedPrice : Option ℚ
  semiDetachedPrice : Option ℚ
  terracedPrice : Option ℚ
  flatPrice : Option ℚ
  averagePct : Option ℚ
  detachedPct : Option ℚ
  semiDetachedPct : Option ℚ
  terracedPct : Option ℚ
  flatPct : Option ℚ

/-- The body of the row loop (property_service.py:130-251): the five
property-type channels are processed in source order. -/
def processRow (acc : List PriceEntry) (row : HpiRow) : List PriceEntry :=
  let acc1 := addPriceEntry acc row.date "Average" (row.averagePrice.getD 0) row.averagePct
  let acc2 := addPriceEntry acc1 row.date "Detached" (row.detachedPrice.getD 0) row.detachedPct
  let acc3 := addPriceEntry acc2 row.date "Semi-detached" (row.semiDetachedPrice.getD 0) row.semiDetachedPct
  let acc4 := addPriceEntry acc3 row.date "Terraced" (row.terracedPrice.getD 0) row.terracedPct
  addPriceEntry acc4 row.date "Flat/Maisonette" (row.flatPrice.getD 0) row.flatPct

/-- The accumulated `price_data` over all result rows. -/
def buildPriceData (rows : List HpiRow) : List PriceEntry :=
  rows.foldl processRow []

/-- Python's `max(xs)` over a key: the FIRST maximal element (the running
maximum is replaced only on a strictly greater key); `none` on an empty
sequence (where Python raises `ValueError`). -/
def pyMaxBy {α : Type} (key : α → Int) : List α → Option α
  | [] => none
  | x :: xs => some (xs.foldl (fun best y => if key best < key y then y else best) x)

/-- Python's `min(xs, key=...)`: the FIRST minimal element (the running
minimum is replaced only on a strictly smaller key); `none` on an empty
sequence. -/
def pyMinBy {α : Type} (key : α → Int) : List α → Option α
  | [] => none
  | x :: xs => some (xs.foldl (fun best y => if key y < key best then y else best) x)

/-- The dates of the accumulated Average entries (the list comprehensions
over `item['property_type'] == 'Average'` in property_service.py:253-266). -/
def averageDates (price_data : List PriceEntry) : List Date :=
  (price_data.filter (fun item => item.property_type == "Average")).map (·.date)

/-- `next((item['average_price'] for item in price_data if item['date'] ==
d and item['property_type'] == 'Average'), 0)`: the first matching Average
entry's price, defaulting to 0. -/
def firstAveragePrice (price_data : List PriceEntry) (d : Date) : Int :=
  ((price_data.find? (fun item =>
    decide (item.date = d) && decide (item.property_type = "Average"))).map
      (·.average_price)).getD 0

/-- The year-over-year tail of `get_uk_house_price_index`
(property_service.py:253-278) applied to the accumulated `price_data`.  The
outer `Option` is `none` for the `ValueError` of `max()` over an empty
sequence (no Average entry; caught by the function's `except`, which returns
its error dictionary); the inner `Option` is the `yearly_change_percentage =
None` outcome. -/
def yearlyChangePercentage (price_data : List PriceEntry) : Option (Option ℚ) :=
  match pyMaxBy Date.toDays (averageDates price_data) with
  | none => none
  | some recent_date =>
    let average_recent : Int := firstAveragePrice price_data recent_date
    let year_ago : Int := recent_date.toDays - 365
    match pyMinBy (fun d => |d.toDays - year_ago|) (averageDates price_data) with
    | none => some none
    | some closest_year_ago =>
      let average_year_ago : Int := firstAveragePrice price_data closest_year_ago
      if 0 < average_year_ago then
        some (some (((average_recent : ℚ) - (average_year_ago : ℚ)) /
          (average_year_ago : ℚ) * 100))
      else some none

/-- The spec's year-over-year example series: Average entries at 2023-01
(200000) and 2024-01 (220000). -/
def hpiExample : List PriceEntry :=
  [⟨⟨2023, 1, 1⟩, "Average", 200000, none⟩,
   ⟨⟨2024, 1, 1⟩, "Average", 220000, none⟩]

/-! ### crime_service (src/services/crime_service.py) -/

/-- The result of `get_crime_data_for_date` (crime_service.py:6-50): the
decoded JSON list of a status-200 response (the street-crime endpoint returns
a bare list of incidents), or the error dictionary built for any other status
or exception.  The incident payload is a type parameter: nothing in the
month loops inspects individual records. -/
inductive MonthResult (α : Type) where
  | ok (crimes : List α)
  | err (msg details : String)
deriving DecidableEq

/-- The `while current_month <= 0: current_month += 12; current_year -= 1`
rollover (crime_service.py:81-83 and 137-139), driven by a fuel counter so
that it is structurally recursive.  The fuel `(1 - m).toNat` used by
`normMonth` always suffices: each pass adds 12 to `m`, and zero fuel implies
`1 ≤ m`, i.e. the loop would not run anyway (`normMonth_eq` below proves the
loop's defining equation). -/
def normMonthGo : Nat → Int → Int → Int × Int
  | 0, y, m => (y, m)
  | fuel + 1, y, m => if m ≤ 0 then normMonthGo fuel (y - 1) (m + 12) else (y, m)

/-- The normalized `(current_year, current_month)` after the rollover loop. -/
def normMonth (y m : Int) : Int × Int :=
  normMonthGo (1 - m).toNat y m

/-- `f"{current_year}-{current_month:02d}"`: the month number zero-padded to
two digits (every month reaching this format lies in 1..12, where the
Python and Lean renderings agree). -/
def formatMonth (y m : Int) : String :=
  toString y ++ "-" ++ (if m < 10 then "0" ++ toString m else toString m)

/-- The 12 month strings the loops request, in request order (current month
first, walking backwards). -/
def monthStrs (year month : Int) : List String :=
  (List.range 12).map (fun (i : Nat) =>
    let ym := normMonth year (month - (i : Int))
    formatMonth ym.1 ym.2)

/-- `get_crime_data(latitude, longitude, radius, date)`
(crime_service.py:52-98), with `get_crime_data_for_date` abstracted by an
oracle from the `YYYY-MM` string to its result (coordinates and radius are
fixed across the loop, so they are folded into the oracle).  With a `date`
argument the single month's raw result is returned (`inl`); otherwise the
12-month loop returns the combined list (`inr`), extending it only with
months whose result is not an error dictionary. -/
def get_crime_data {α : Type} (oracle : String → MonthResult α)
    (today_year today_month : Int) (date : Option String) :
    MonthResult α ⊕ List α :=
  match date with
  | some d => .inl (oracle d)
  | none =>
    .inr ((List.range 12).foldl (fun all_crimes (i : Nat) =>
      let ym := normMonth today_year (today_month - (i : Int))
      match oracle (formatMonth ym.1 ym.2) with
      | .ok month_crimes => all_crimes ++ month_crimes
      | .err _ _ => all_crimes) [])

/-- `get_last_year_monthly_data(latitude, longitude, radius)`
(crime_service.py:115-153): the month-keyed dictionary in insertion order
(the 12 month keys are pairwise distinct, so each `monthly_data[date_str] =
crimes` assignment is a fresh insertion, modelled by appending the pair). -/
def get_last_year_monthly_data {α : Type} (oracle : String → MonthResult α)
    (today_year today_month : Int) : List (String × List α) :=
  (List.range 12).foldl (fun monthly_data (i : Nat) =>
    let ym := normMonth today_year (today_month - (i : Int))
    let date_str := formatMonth ym.1 ym.2
    match oracle date_str with
    | .ok crimes => monthly_data ++ [(date_str, crimes)]
    | .err _ _ => monthly_data) []

/-! ### location_service.get_location_data
(src/services/location_service.py:3-49) -/

/-- The `result` object of a postcodes.io response, restricted to the keys
`get_location_data` reads; every field goes through `result.get(...)`, so all
are optional.  The `codes` bag is an opaque key-value list. -/
structure PostcodeResult where
  postcode : Option String
  latitude : Option ℚ
  longitude : Option ℚ
  region : Option String
  country : Option String
  admin_district : Option String
  admin_ward : Option String
  parliamentary_constituency : Option String
  european_electoral_region : Option String
  primary_care_trust : Option String
  nuts : Option String
  codes : Option (List (String × String))
deriving DecidableEq

/-- The decoded response of the postcode lookup as `get_location_data`
distinguishes it: an `"error"` key wins, then the `"result"` envelope; a
response with neither is the "bad shape" case. -/
inductive PostcodeResponse where
  | err (msg : String)
  | ok (result : PostcodeResult)
  | noResult
deriving DecidableEq

/-- The location dictionary `get_location_data` builds. -/
structure LocationRecord where
  postcode : String
  outcode : String
  latitude : Option ℚ
  longitude : Option ℚ
  region : Option String
  country : Option String
  admin_district : Option String
  admin_ward : Option String
  parliamentary_constituency : Option String
  european_electoral_region : Option String
  primary_care_trust : Option String
  nuts : Option String
  codes : List (String × String)
deriving DecidableEq

/-- The result of `get_location_data`: an error dictionary or the location
record. -/
inductive LocationResult where
  | err (msg : String)
  | record (r : LocationRecord)
deriving DecidableEq

/-- `get_location_data(postcode)` (location_service.py:3-49) given the
decoded response of its lookup call (the URL only affects the request). -/
def get_location_data (postcode : String) (resp : PostcodeResponse) :
    LocationResult :=
  match resp with
  | .err msg => .err msg
  | .noResult => .err "Unexpected API response format"
  | .ok result =>
    let outcode := if postcode.contains ' '
      then (postcode.splitOn " ").headD postcode else postcode
    .record
      { postcode := result.postcode.getD postcode
        outcode := outcode
        latitude := result.latitude
        longitude := result.longitude
        region := result.region
        country := result.country
        admin_district := result.admin_district
        admin_ward := result.admin_ward
        parliamentary_constituency := result.parliamentary_constituency
        european_electoral_region := result.european_electoral_region
        primary_care_trust := result.primary_care_trust
        nuts := result.nuts
        codes := result.codes.getD [] }

/-- A postcodes.io result carrying a latitude but no longitude, for refuting
the paired-coordinates invariant. -/
def latOnlyResult : PostcodeResult where
  postcode := some "AB1 2CD"
  latitude := some 51
  longitude := none
  region := none
  country := none
  admin_district := none
  admin_ward := none
  parliamentary_constituency := none
  european_electoral_region := none
  primary_care_trust := none
  nuts := none
  codes := none

/-- A postcodes.io result carrying both coordinates, for instantiating the
pass-through theorem. -/
def bothCoordsResult : PostcodeResult where
  postcode := some "AB1 2CD"
  latitude := some 51
  longitude := some (-1)
  region := none
  country := none
  admin_district := none
  admin_ward := none
  parliamentary_constituency := none
  european_electoral_region := none
  primary_care_trust := none
  nuts := none
  codes := none

/-! ### data_fetcher.make_request (src/utils/data_fetcher.py:6-49) -/

/-- An HTTP response as `make_request` inspects it: status code, the parsed
`Retry-After` header when present, the response text, and the decoded JSON
payload used on status 200. -/
structure HttpResponse (α : Type) where
  status : Nat
  retryAfter : Option Nat
  body : String
  data : α
deriving DecidableEq

/-- What one `requests.get` attempt produces: a response, a
`requests.exceptions.Timeout`, or another `RequestException`. -/
inductive AttemptOutcome (α : Type) where
  | response (r : HttpResponse α)
  | timeout
  | requestError (msg : String)
deriving DecidableEq

/-- `make_request`'s return value, one constructor per distinct dictionary
shape it returns: decoded JSON on success; `{'error': 'Request failed with
status code: ...', 'details': ...}`; `{'error': 'Request timed out'}`;
`{'error': 'Request failed: ...'}`; `{'error': 'Maximum retry attempts
reached'}`. -/
inductive ReqResult (α : Type) where
  | json (data : α)
  | statusError (status : Nat) (details : String)
  | timedOut
  | requestFailed (msg : String)
  | maxRetriesReached
deriving DecidableEq

/-- Whether an attempt outcome is an HTTP 429 response. -/
def is429 {α : Type} : AttemptOutcome α → Bool
  | .response r => r.status == 429
  | _ => false

/-- Whether an attempt outcome is a `Timeout` exception. -/
def isTimeout {α : Type} : AttemptOutcome α → Bool
  | .timeout => true
  | _ => false

/-- The `for attempt in range(max_retries)` loop of `make_request`
(data_fetcher.py:26-49), recursing on the count of remaining iterations
(`remaining = max_retries - attempt` throughout; zero remaining is the
fall-through to the final `return`).  The oracle maps the attempt index to
that attempt's outcome.  Alongside the result, the list of the `time.sleep`
durations (seconds) is accumulated: the 429 branch sleeps
`int(response.headers.get('Retry-After', retry_delay * 2))`, the non-final
timeout branch sleeps `retry_delay`. -/
def make_request_go {α : Type} (outcome : Nat → AttemptOutcome α)
    (max_retries retry_delay : Nat) :
    Nat → Nat → List Nat → ReqResult α × List Nat
  | 0, _, sleeps => (.maxRetriesReached, sleeps)
  | remaining + 1, attempt, sleeps =>
    match outcome attempt with
    | .response r =>
      if r.status = 200 then (.json r.data, sleeps)
      else if r.status = 429 then
        make_request_go outcome max_retries retry_delay remaining (attempt + 1)
          (sleeps ++ [r.retryAfter.getD (retry_delay * 2)])
      else
        (.statusError r.status
          (if r.body = "" then "No details available" else r.body), sleeps)
    | .timeout =>
      if attempt < max_retries - 1 then
        make_request_go outcome max_retries retry_delay remaining (attempt + 1)
          (sleeps ++ [retry_delay])
      else (.timedOut, sleeps)
    | .requestError msg => (.requestFailed ("Request failed: " ++ msg), sleeps)

/-- `make_request(url, params, headers, max_retries, retry_delay)` with the
network abstracted by the per-attempt outcome oracle: result together with
the sleep log. -/
def make_request {α : Type} (outcome : Nat → AttemptOutcome α)
    (max_retries retry_delay : Nat) : ReqResult α × List Nat :=
  make_request_go outcome max_retries retry_delay max_retries 0 []

/-- An attempt sequence whose first attempt is rate-limited (no `Retry-After`
header) and whose later attempts would succeed. -/
def rateLimitedThenOk : Nat → AttemptOutcome Unit :=
  fun i => if i = 0 then .response ⟨429, none, "", ()⟩
           else .response ⟨200, none, "", ()⟩

/-- An attempt sequence timing out on the first attempt and rate-limited on
every later one. -/
def timeoutThen429 : Nat → AttemptOutcome Unit :=
  fun i => if i = 0 then .timeout else .response ⟨429, none, "", ()⟩

/-! ### Theorems -/

/-- C1: on the square ring `[(0,0),(0,10),(10,10),(10,0)]` the ray-casting
routine `point_in_polygon` classifies `(5,5)` as inside (`true`) and `(15,15)`
as outside (`false`); both evaluations return normally. -/
theorem C1_point_in_polygon_square :
    point_in_polygon (5, 5) [(0, 0), (0, 10), (10, 10), (10, 0)] = some true ∧
    point_in_polygon (15, 15) [(0, 0), (0, 10), (10, 10), (10, 0)] = some false := by
  constructor <;> decide

/-- On a successful scan, `scanRings` is `true` iff some ring contains the
point. -/
theorem scanRings_spec (p : ℚ × ℚ) (rs : List (List (ℚ × ℚ))) :
    ∀ b, scanRings p rs = some b →
      (b = true ↔ ∃ r ∈ rs, point_in_polygon p r = some true) := by
  induction rs with
  | nil =>
    intro b h
    simp only [scanRings, Option.some.injEq] at h
    subst h
    simp
  | cons r rs ih =>
    intro b h
    simp only [scanRings] at h
    split at h
    · exact absurd h (by simp)
    · rename_i heq
      injection h with h
      subst h
      simp only [true_iff]
      exact ⟨r, List.mem_cons_self r rs, heq⟩
    · rename_i heq
      rw [ih b h]
      constructor
      · rintro ⟨r', hr', hp⟩
        exact ⟨r', List.mem_cons_of_mem _ hr', hp⟩
      · rintro ⟨r', hr', hp⟩
        rcases List.mem_cons.mp hr' with hrr | hr''
        · subst hrr
          rw [heq] at hp
          exact absurd (Option.some.inj hp) (by simp)
        · exact ⟨r', hr'', hp⟩

/-- On a successful scan, `scanPolygons` is `true` iff some ring of some
polygon contains the point. -/
theorem scanPolygons_spec (p : ℚ × ℚ) (ps : List (List (List (ℚ × ℚ)))) :
    ∀ b, scanPolygons p ps = some b →
      (b = true ↔ ∃ poly ∈ ps, ∃ r ∈ poly, point_in_polygon p r = some true) := by
  induction ps with
  | nil =>
    intro b h
    simp only [scanPolygons, Option.some.injEq] at h
    subst h
    simp
  | cons poly rest ih =>
    intro b h
    simp only [scanPolygons] at h
    split at h
    · exact absurd h (by simp)
    · rename_i b1 heq1
      split at h
      · exact absurd h (by simp)
      · rename_i b2 heq2
        injection h with h
        subst h
        rw [Bool.or_eq_true, scanRings_spec p poly b1 heq1, ih b2 heq2]
        constructor
        · rintro (⟨r, hr, hp⟩ | ⟨poly', hpoly', hr⟩)
          · exact ⟨poly, List.mem_cons_self _ _, r, hr, hp⟩
          · exact ⟨poly', List.mem_cons_of_mem _ hpoly', hr⟩
        · rintro ⟨poly', hpoly', r, hr, hp⟩
          rcases List.mem_cons.mp hpoly' with hpp | hp'
          · subst hpp
            exact Or.inl ⟨r, hr, hp⟩
          · exact Or.inr ⟨poly', hp', r, hr, hp⟩

/-- On a successful evaluation, `featureHit` is `true` iff some ring of the
feature's geometry contains the point. -/
theorem featureHit_spec (p : ℚ × ℚ) (f : Feature) (b : Bool)
    (h : featureHit p f = some b) :
    b = true ↔ ∃ r ∈ ringsOf f, point_in_polygon p r = some true := by
  obtain ⟨fz, g⟩ := f
  match g with
  | none =>
    simp only [featureHit, Option.some.injEq] at h
    subst h
    simp [ringsOf]
  | some .other =>
    simp only [featureHit, Option.some.injEq] at h
    subst h
    simp [ringsOf]
  | some (.polygon rings) =>
    simp only [featureHit] at h
    simpa [ringsOf] using scanRings_spec p rings b h
  | some (.multiPolygon polys) =>
    simp only [featureHit] at h
    rw [scanPolygons_spec p polys b h]
    simp only [ringsOf, List.mem_join]
    constructor
    · rintro ⟨poly, hpoly, r, hr, hp⟩
      exact ⟨r, ⟨poly, hpoly, hr⟩, hp⟩
    · rintro ⟨r, ⟨poly, hpoly, hr⟩, hp⟩
      exact ⟨poly, hpoly, r, hr, hp⟩

/-- On a successful scan, `scanFeatures` is `true` iff some scanned feature
has a ring containing the point. -/
theorem scanFeatures_spec (p : ℚ × ℚ) (fs : List Feature) :
    ∀ b, scanFeatures p fs = some b →
      (b = true ↔ ∃ f ∈ fs, ∃ r ∈ ringsOf f, point_in_polygon p r = some true) := by
  induction fs with
  | nil =>
    intro b h
    simp only [scanFeatures, Option.some.injEq] at h
    subst h
    simp
  | cons f fs ih =>
    intro b h
    simp only [scanFeatures] at h
    split at h
    · exact absurd h (by simp)
    · rename_i heq
      injection h with h
      subst h
      simp only [true_iff]
      exact ⟨f, List.mem_cons_self f fs, (featureHit_spec p f true heq).mp rfl⟩
    · rename_i heq
      rw [ih b h]
      constructor
      · rintro ⟨f', hf', hp⟩
        exact ⟨f', List.mem_cons_of_mem _ hf', hp⟩
      · rintro ⟨f', hf', hp⟩
        rcases List.mem_cons.mp hf' with hff | hf''
        · subst hff
          exact absurd ((featureHit_spec p f' false heq).mpr hp) (by simp)
        · exact ⟨f', hf'', hp⟩

/-- `pipStep` never signals a `NameError`: whenever the stale `xinters` would
be consulted, the guarding conditions force `p1y ≠ p2y`, so `xinters` has just
been assigned. -/
theorem pipStep_isSome (x y p1x p1y p2x p2y : ℚ) (st : Option ℚ × Bool) :
    (pipStep x y p1x p1y p2x p2y st).isSome := by
  by_cases hy : p1y = p2y
  · have hcond : ¬(y > min p1y p2y ∧ y ≤ max p1y p2y ∧ x ≤ max p1x p2x) := by
      subst hy
      simp only [min_self, max_self]
      rintro ⟨h1, h2, -⟩
      exact absurd h2 (not_le.mpr h1)
    simp only [pipStep]
    rw [if_neg hcond]
    simp
  · simp only [pipStep, ne_eq, hy, not_false_eq_true, if_true]
    split_ifs <;> simp

/-- Folding `pipStep` over any edge list never fails. -/
theorem foldlM_pipStep_isSome (x y : ℚ) (es : List ((ℚ × ℚ) × (ℚ × ℚ))) :
    ∀ st, (List.foldlM (fun st e => pipStep x y e.1.1 e.1.2 e.2.1 e.2.2 st)
      st es).isSome := by
  induction es with
  | nil => intro st; simp
  | cons e es ih =>
    intro st
    rw [List.foldlM_cons]
    obtain ⟨st', hst'⟩ := Option.isSome_iff_exists.mp
      (pipStep_isSome x y e.1.1 e.1.2 e.2.1 e.2.2 st)
    rw [hst']
    simpa using ih st'

/-- `point_in_polygon` returns normally on every nonempty ring. -/
theorem point_in_polygon_isSome (p : ℚ × ℚ) (poly : List (ℚ × ℚ))
    (hne : poly ≠ []) : (point_in_polygon p poly).isSome := by
  match poly, hne with
  | v :: rest, _ =>
    simp only [point_in_polygon]
    obtain ⟨st, hst⟩ := Option.isSome_iff_exists.mp
      (foldlM_pipStep_isSome p.1 p.2 (pipEdges (v :: rest)) (none, false))
    rw [hst]
    simp

/-- `scanRings` returns normally when every scanned ring is nonempty. -/
theorem scanRings_isSome (p : ℚ × ℚ) (rs : List (List (ℚ × ℚ)))
    (h : ∀ r ∈ rs, r ≠ []) : (scanRings p rs).isSome := by
  induction rs with
  | nil => simp [scanRings]
  | cons r rs ih =>
    obtain ⟨b, hb⟩ := Option.isSome_iff_exists.mp
      (point_in_polygon_isSome p r (h r (List.mem_cons_self r rs)))
    have ih' := ih (fun r' hr' => h r' (List.mem_cons_of_mem _ hr'))
    cases b with
    | true => simp [scanRings, hb]
    | false => simpa [scanRings, hb] using ih'

/-- `scanPolygons` returns normally when every scanned ring is nonempty. -/
theorem scanPolygons_isSome (p : ℚ × ℚ) (ps : List (List (List (ℚ × ℚ))))
    (h : ∀ poly ∈ ps, ∀ r ∈ poly, r ≠ []) : (scanPolygons p ps).isSome := by
  induction ps with
  | nil => simp [scanPolygons]
  | cons poly rest ih =>
    obtain ⟨b, hb⟩ := Option.isSome_iff_exists.mp
      (scanRings_isSome p poly (h poly (List.mem_cons_self poly rest)))
    obtain ⟨b', hb'⟩ := Option.isSome_iff_exists.mp
      (ih (fun poly' hp => h poly' (List.mem_cons_of_mem _ hp)))
    simp [scanPolygons, hb, hb']

/-- `featureHit` returns normally when every ring of the feature is
nonempty. -/
theorem featureHit_isSome (p : ℚ × ℚ) (f : Feature)
    (h : ∀ r ∈ ringsOf f, r ≠ []) : (featureHit p f).isSome := by
  obtain ⟨fz, g⟩ := f
  match g with
  | none => simp [featureHit]
  | some .other => simp [featureHit]
  | some (.polygon rings) =>
    simp only [ringsOf] at h
    exact scanRings_isSome p rings h
  | some (.multiPolygon polys) =>
    simp only [ringsOf] at h
    refine scanPolygons_isSome p polys (fun poly hpoly r hr => ?_)
    exact h r (List.mem_join.mpr ⟨poly, hpoly, hr⟩)

/-- `scanFeatures` returns normally when every ring of every scanned feature
is nonempty. -/
theorem scanFeatures_isSome (p : ℚ × ℚ) (fs : List Feature)
    (h : ∀ f ∈ fs, ∀ r ∈ ringsOf f, r ≠ []) : (scanFeatures p fs).isSome := by
  induction fs with
  | nil => simp [scanFeatures]
  | cons f fs ih =>
    obtain ⟨b, hb⟩ := Option.isSome_iff_exists.mp
      (featureHit_isSome p f (h f (List.mem_cons_self f fs)))
    have ih' := ih (fun f' hf' => h f' (List.mem_cons_of_mem _ hf'))
    cases b with
    | true => simp [scanFeatures, hb]
    | false => simpa [scanFeatures, hb] using ih'

/-- Characterization of `check_point_in_flood_zones` on normal return: the
pair is `(in_zone_2, in_zone_3)`; `in_zone_3` reports containment in some
Zone 3 feature, and `in_zone_2` is computed (and can only be `true`) when
`in_zone_3` is `false`. -/
theorem check_point_in_flood_zones_spec (fd : ZoneData) (lon lat : ℚ)
    (z : Bool × Bool) (h : check_point_in_flood_zones lon lat fd = some z) :
    (z.2 = true ↔ ∃ f ∈ fd.flood_zone_3, ∃ r ∈ ringsOf f,
        point_in_polygon (lon, lat) r = some true) ∧
    (z.1 = true ↔ (z.2 = false ∧ ∃ f ∈ fd.flood_zone_2, ∃ r ∈ ringsOf f,
        point_in_polygon (lon, lat) r = some true)) := by
  simp only [check_point_in_flood_zones] at h
  split at h
  · exact absurd h (by simp)
  · rename_i in3 heq3
    have h3 := scanFeatures_spec (lon, lat) fd.flood_zone_3 in3 heq3
    cases in3 with
    | true =>
      rw [if_pos rfl] at h
      injection h with h
      subst h
      constructor
      · simpa using h3
      · simp
    | false =>
      rw [if_neg (by simp)] at h
      split at h
      · exact absurd h (by simp)
      · rename_i in2 heq2
        have h2 := scanFeatures_spec (lon, lat) fd.flood_zone_2 in2 heq2
        injection h with h
        subst h
        exact ⟨by simpa using h3, by simpa using h2⟩

/-- C2: whenever `get_flood_risk_description` returns normally, its risk level
is `"high"` iff the point is inside some ring of some Zone 3 feature (even if
it is also inside a Zone 2 feature), `"medium"` iff it is inside some Zone 2
feature and no Zone 3 feature, and `"low"` otherwise; the returned description
is always exactly one of the three fixed tiers.  Moreover the call returns
normally whenever every ring in the bundle is nonempty. -/
theorem C2_flood_risk_precedence (fd : ZoneData) (longitude latitude : ℚ) :
    (∀ d, get_flood_risk_description fd longitude latitude = some d →
      ((d.risk_level = "high" ↔ ∃ f ∈ fd.flood_zone_3, ∃ r ∈ ringsOf f,
          point_in_polygon (longitude, latitude) r = some true) ∧
        (d.risk_level = "medium" ↔
          (¬(∃ f ∈ fd.flood_zone_3, ∃ r ∈ ringsOf f,
              point_in_polygon (longitude, latitude) r = some true) ∧
            ∃ f ∈ fd.flood_zone_2, ∃ r ∈ ringsOf f,
              point_in_polygon (longitude, latitude) r = some true)) ∧
        (d.risk_level = "low" ↔
          (¬(∃ f ∈ fd.flood_zone_3, ∃ r ∈ ringsOf f,
              point_in_polygon (longitude, latitude) r = some true) ∧
            ¬(∃ f ∈ fd.flood_zone_2, ∃ r ∈ ringsOf f,
              point_in_polygon (longitude, latitude) r = some true))) ∧
        (d = highRisk ∨ d = mediumRisk ∨ d = lowRisk))) ∧
    ((∀ f ∈ fd.flood_zone_3 ++ fd.flood_zone_2, ∀ r ∈ ringsOf f, r ≠ []) →
      (get_flood_risk_description fd longitude latitude).isSome) := by
  constructor
  · intro d hd
    simp only [get_flood_risk_description] at hd
    split at hd
    · exact absurd hd (by simp)
    · rename_i z heq
      have hspec := check_point_in_flood_zones_spec fd longitude latitude z heq
      injection hd with hd
      obtain ⟨z2, z3⟩ := z
      cases z3 with
      | true =>
        rw [if_pos rfl] at hd
        subst hd
        have h3 := hspec.1.mp rfl
        refine ⟨iff_of_true rfl h3, ?_, ?_, Or.inl rfl⟩
        · refine iff_of_false (by decide) ?_
          rintro ⟨hn, -⟩
          exact hn h3
        · refine iff_of_false (by decide) ?_
          rintro ⟨hn, -⟩
          exact hn h3
      | false =>
        rw [if_neg (by simp)] at hd
        have hn3 : ¬(∃ f ∈ fd.flood_zone_3, ∃ r ∈ ringsOf f,
            point_in_polygon (longitude, latitude) r = some true) :=
          fun hh => by simpa using hspec.1.mpr hh
        cases z2 with
        | true =>
          rw [if_pos rfl] at hd
          subst hd
          have h2 := (hspec.2.mp rfl).2
          refine ⟨iff_of_false (by decide) hn3, iff_of_true rfl ⟨hn3, h2⟩, ?_,
            Or.inr (Or.inl rfl)⟩
          refine iff_of_false (by decide) ?_
          rintro ⟨-, hn2⟩
          exact hn2 h2
        | false =>
          rw [if_neg (by simp)] at hd
          subst hd
          have hn2 : ¬(∃ f ∈ fd.flood_zone_2, ∃ r ∈ ringsOf f,
              point_in_polygon (longitude, latitude) r = some true) :=
            fun hh => by simpa using hspec.2.mpr ⟨rfl, hh⟩
          refine ⟨iff_of_false (by decide) hn3, ?_, iff_of_true rfl ⟨hn3, hn2⟩,
            Or.inr (Or.inr rfl)⟩
          refine iff_of_false (by decide) ?_
          rintro ⟨-, hh⟩
          exact hn2 hh
  · intro hne
    have hne3 : ∀ f ∈ fd.flood_zone_3, ∀ r ∈ ringsOf f, r ≠ [] :=
      fun f hf => hne f (List.mem_append_left _ hf)
    have hne2 : ∀ f ∈ fd.flood_zone_2, ∀ r ∈ ringsOf f, r ≠ [] :=
      fun f hf => hne f (List.mem_append_right _ hf)
    obtain ⟨b3, hb3⟩ := Option.isSome_iff_exists.mp
      (scanFeatures_isSome (longitude, latitude) fd.flood_zone_3 hne3)
    cases b3 with
    | true => simp [get_flood_risk_description, check_point_in_flood_zones, hb3]
    | false =>
      obtain ⟨b2, hb2⟩ := Option.isSome_iff_exists.mp
        (scanFeatures_isSome (longitude, latitude) fd.flood_zone_2 hne2)
      simp [get_flood_risk_description, check_point_in_flood_zones, hb3, hb2]

set_option maxRecDepth 4000 in
/-- Witness for C2: on a bundle where the point `(5,5)` is inside both a
Zone 2 and a Zone 3 square, the call returns the high tier, and the theorem's
first equivalence holds at this instance. -/
theorem C2_witness :
    get_flood_risk_description overlapZoneData 5 5 = some highRisk ∧
    (highRisk.risk_level = "high" ↔ ∃ f ∈ overlapZoneData.flood_zone_3,
      ∃ r ∈ ringsOf f, point_in_polygon (5, 5) r = some true) :=
  ⟨by decide, ((C2_flood_risk_precedence overlapZoneData 5 5).1 highRisk (by decide)).1⟩

/-- Counterexample for C3: with the very first zone-geometry page failing
with a transport error and the warnings fetch failing too, `get_flood_data`
returns a success bundle — empty zone lists, the warnings failure embedded
under `flood_warnings` — and not a top-level error. -/
theorem C3_counterexample :
    get_flood_data (fun _ => .error "connection refused")
      (.error "connection refused") (.items []) 51 0 2 1 =
      some (.bundle
        { flood_zone_2 := []
          flood_zone_3 := []
          flood_warnings := .err "connection refused"
          flood_metrics := .ok 0 []
          center_latitude := 51
          center_longitude := 0
          radius_km := 2 }) := rfl

/-- C3 amended: `get_flood_data` never returns a top-level error on a
transport failure.  A zone-geometry page failure silently ends pagination
(a failure of the first page just yields empty zone lists), and failures of
the warnings or stations fetches are embedded in the corresponding
sub-objects of the success bundle. -/
theorem C3_flood_data_swallows_errors (pageOracle : Nat → ZoneResponse)
    (warnResp : ItemsResponse RawWarning) (stationResp : ItemsResponse RawStation)
    (latitude longitude radius_km : ℚ) (fuel : Nat) (res : FloodDataResult)
    (h : get_flood_data pageOracle warnResp stationResp latitude longitude
      radius_km fuel = some res) :
    (∃ b, res = .bundle b ∧
      b.flood_warnings = get_flood_warnings warnResp ∧
      b.flood_metrics = get_nearby_flood_monitoring_stations stationResp) ∧
    (∀ msg, pageOracle 0 = .error msg →
      res = .bundle
        { flood_zone_2 := []
          flood_zone_3 := []
          flood_warnings := get_flood_warnings warnResp
          flood_metrics := get_nearby_flood_monitoring_stations stationResp
          center_latitude := latitude
          center_longitude := longitude
          radius_km := radius_km }) := by
  simp only [get_flood_data] at h
  split at h
  · exact absurd h (by simp)
  · rename_i all_features hall
    injection h with h
    subst h
    refine ⟨⟨_, rfl, rfl, rfl⟩, ?_⟩
    intro msg hmsg
    have hnil : all_features = [] := by
      cases fuel with
      | zero => simp [fetchPages] at hall
      | succ n =>
        rw [fetchPages, hmsg] at hall
        exact (Option.some.inj hall).symm
    subst hnil
    rfl

/-- Witness for C3's amended theorem: applied to a run whose zone pages are
empty and whose warnings and stations fetches return empty item lists. -/
theorem C3_witness :
    ∃ b, (FloodDataResult.bundle
      { flood_zone_2 := []
        flood_zone_3 := []
        flood_warnings := .ok 0 []
        flood_metrics := .ok 0 []
        center_latitude := 51
        center_longitude := 0
        radius_km := 2 }) = .bundle b ∧
      b.flood_warnings = get_flood_warnings (.items []) ∧
      b.flood_metrics = get_nearby_flood_monitoring_stations (.items []) :=
  (C3_flood_data_swallows_errors (fun _ => .features []) (.items []) (.items [])
    51 0 2 1 _ rfl).1

/-- A found element satisfies the predicate (stated with the predicate
implicit so that it applies without higher-order unification). -/
theorem find?_pred {α : Type} {p : α → Bool} {l : List α} {a : α}
    (h : l.find? p = some a) : p a = true := by
  induction l with
  | nil => simp [List.find?] at h
  | cons x xs ih =>
    by_cases hx : p x
    · rw [List.find?_cons_of_pos _ hx] at h
      injection h with h
      subst h
      exact hx
    · rw [List.find?_cons_of_neg _ hx] at h
      exact ih h

/-- C4: a candidate `(date, property type, price)` with positive price is
appended to `price_data` iff no already-accumulated entry with the same date
and property type has a rounded price different from the candidate's; hence
a literal duplicate is appended again, while a same-key row whose rounded
price differs is suppressed (the spec's `300000` twice vs `300001` after
`300000` examples are instances). -/
theorem C4_price_dedup :
    (∀ (acc : List PriceEntry) (d : Date) (ptype : String) (price : ℚ)
        (pct : Option ℚ), 0 < price →
      ((addPriceEntry acc d ptype price pct =
          acc ++ [{ date := d, property_type := ptype,
                    average_price := pythonRound price,
                    percentage_annual_change := pct.map pythonRound2 }] ↔
        ∀ item ∈ acc, item.date = d → item.property_type = ptype →
          item.average_price = pythonRound price) ∧
       (addPriceEntry acc d ptype price pct = acc ↔
        ∃ item ∈ acc, item.date = d ∧ item.property_type = ptype ∧
          item.average_price ≠ pythonRound price))) ∧
    (addPriceEntry (addPriceEntry [] ⟨2024, 1, 1⟩ "Detached" 300000 none)
        ⟨2024, 1, 1⟩ "Detached" 300000 none =
      [⟨⟨2024, 1, 1⟩, "Detached", 300000, none⟩,
       ⟨⟨2024, 1, 1⟩, "Detached", 300000, none⟩]) ∧
    (addPriceEntry [⟨⟨2024, 1, 1⟩, "Detached", 300000, none⟩]
        ⟨2024, 1, 1⟩ "Detached" 300001 none =
      [⟨⟨2024, 1, 1⟩, "Detached", 300000, none⟩]) := by
  refine ⟨?_, by decide, by decide⟩
  intro acc d ptype price pct hpos
  have hpred : ∀ item : PriceEntry,
      ((decide (item.date = d) && decide (item.property_type = ptype) &&
        decide (item.average_price ≠ pythonRound price)) = true) ↔
      (item.date = d ∧ item.property_type = ptype ∧
        item.average_price ≠ pythonRound price) := by
    intro item
    simp [and_assoc]
  by_cases hfind : (acc.find? (fun item =>
      decide (item.date = d) && decide (item.property_type = ptype) &&
        decide (item.average_price ≠ pythonRound price))) = none
  · have hnone : ∀ item ∈ acc, ¬(item.date = d ∧ item.property_type = ptype ∧
        item.average_price ≠ pythonRound price) := by
      intro item hitem hP
      exact List.find?_eq_none.mp hfind item hitem ((hpred item).mpr hP)
    have hres : addPriceEntry acc d ptype price pct =
        acc ++ [{ date := d, property_type := ptype,
                  average_price := pythonRound price,
                  percentage_annual_change := pct.map pythonRound2 }] := by
      simp only [addPriceEntry]
      rw [if_pos hpos, hfind]
      rfl
    rw [hres]
    constructor
    · refine iff_of_true rfl ?_
      intro item hitem hd hp
      by_contra hne
      exact hnone item hitem ⟨hd, hp, hne⟩
    · refine iff_of_false ?_ ?_
      · intro hcontr
        have := congrArg List.length hcontr
        simp at this
      · rintro ⟨item, hitem, hd, hp, hne⟩
        exact hnone item hitem ⟨hd, hp, hne⟩
  · obtain ⟨item0, hfound⟩ := Option.ne_none_iff_exists'.mp hfind
    have hmem0 : item0 ∈ acc := List.mem_of_find?_eq_some hfound
    have hp0 := find?_pred hfound
    have hprops := (hpred item0).mp hp0
    have hres : addPriceEntry acc d ptype price pct = acc := by
      simp only [addPriceEntry]
      rw [if_pos hpos, hfound]
      rfl
    rw [hres]
    constructor
    · refine iff_of_false ?_ ?_
      · intro hcontr
        have := congrArg List.length hcontr
        simp at this
      · intro hall
        exact hprops.2.2 (hall item0 hmem0 hprops.1 hprops.2.1)
    · exact iff_of_true rfl ⟨item0, hmem0, hprops⟩

/-- Witness for C4: the dedup rule applied with an empty accumulator and the
spec's `(2024-01, "Detached", 300000)` candidate. -/
theorem C4_witness :
    (0 : ℚ) < 300000 ∧
    (addPriceEntry [] ⟨2024, 1, 1⟩ "Detached" 300000 none =
        [] ++ [{ date := ⟨2024, 1, 1⟩, property_type := "Detached",
                 average_price := pythonRound 300000,
                 percentage_annual_change := Option.map pythonRound2 none }] ↔
      ∀ item ∈ ([] : List PriceEntry), item.date = ⟨2024, 1, 1⟩ →
        item.property_type = "Detached" →
          item.average_price = pythonRound 300000) :=
  ⟨by decide,
    (C4_price_dedup.1 [] ⟨2024, 1, 1⟩ "Detached" 300000 none (by decide)).1⟩

/-- The first-minimal fold behind `pyMinBy`: the fold's result is the seed or
a list element, and its key is a lower bound for the seed's key and every
element's key. -/
theorem pyMinBy_foldl_spec {α : Type} (key : α → Int) :
    ∀ (xs : List α) (b : α),
      (xs.foldl (fun best y => if key y < key best then y else best) b = b ∨
        xs.foldl (fun best y => if key y < key best then y else best) b ∈ xs) ∧
      key (xs.foldl (fun best y => if key y < key best then y else best) b) ≤
        key b ∧
      ∀ y ∈ xs,
        key (xs.foldl (fun best y => if key y < key best then y else best) b) ≤
          key y := by
  intro xs
  induction xs with
  | nil => intro b; simp
  | cons x xs ih =>
    intro b
    simp only [List.foldl_cons]
    by_cases hx : key x < key b
    · rw [if_pos hx]
      obtain ⟨hmem, hle, hall⟩ := ih x
      refine ⟨?_, le_trans hle (le_of_lt hx), ?_⟩
      · rcases hmem with h | h
        · rw [h]
          exact Or.inr (List.mem_cons_self x xs)
        · exact Or.inr (List.mem_cons_of_mem _ h)
      · intro y hy
        rcases List.mem_cons.mp hy with rfl | hy'
        · exact hle
        · exact hall y hy'
    · rw [if_neg hx]
      obtain ⟨hmem, hle, hall⟩ := ih b
      refine ⟨?_, hle, ?_⟩
      · rcases hmem with h | h
        · exact Or.inl h
        · exact Or.inr (List.mem_cons_of_mem _ h)
      · intro y hy
        rcases List.mem_cons.mp hy with rfl | hy'
        · exact le_trans hle (not_lt.mp hx)
        · exact hall y hy'

/-- `pyMinBy` returns a list element whose key is minimal. -/
theorem pyMinBy_spec {α : Type} (key : α → Int) (xs : List α) (x : α)
    (h : pyMinBy key xs = some x) : x ∈ xs ∧ ∀ y ∈ xs, key x ≤ key y := by
  match xs, h with
  | a :: as, h =>
    simp only [pyMinBy, Option.some.injEq] at h
    subst h
    obtain ⟨hmem, hle, hall⟩ := pyMinBy_foldl_spec key as a
    constructor
    · rcases hmem with h | h
      · rw [h]
        exact List.mem_cons_self a as
      · exact List.mem_cons_of_mem _ h
    · intro y hy
      rcases List.mem_cons.mp hy with rfl | hy'
      · exact hle
      · exact hall y hy'

/-- The first-maximal fold behind `pyMaxBy`, dual to `pyMinBy_foldl_spec`. -/
theorem pyMaxBy_foldl_spec {α : Type} (key : α → Int) :
    ∀ (xs : List α) (b : α),
      (xs.foldl (fun best y => if key best < key y then y else best) b = b ∨
        xs.foldl (fun best y => if key best < key y then y else best) b ∈ xs) ∧
      key b ≤
        key (xs.foldl (fun best y => if key best < key y then y else best) b) ∧
      ∀ y ∈ xs, key y ≤
        key (xs.foldl (fun best y => if key best < key y then y else best) b) := by
  intro xs
  induction xs with
  | nil => intro b; simp
  | cons x xs ih =>
    intro b
    simp only [List.foldl_cons]
    by_cases hx : key b < key x
    · rw [if_pos hx]
      obtain ⟨hmem, hle, hall⟩ := ih x
      refine ⟨?_, le_trans (le_of_lt hx) hle, ?_⟩
      · rcases hmem with h | h
        · rw [h]
          exact Or.inr (List.mem_cons_self x xs)
        · exact Or.inr (List.mem_cons_of_mem _ h)
      · intro y hy
        rcases List.mem_cons.mp hy with rfl | hy'
        · exact hle
        · exact hall y hy'
    · rw [if_neg hx]
      obtain ⟨hmem, hle, hall⟩ := ih b
      refine ⟨?_, hle, ?_⟩
      · rcases hmem with h | h
        · exact Or.inl h
        · exact Or.inr (List.mem_cons_of_mem _ h)
      · intro y hy
        rcases List.mem_cons.mp hy with rfl | hy'
        · exact le_trans (not_lt.mp hx) hle
        · exact hall y hy'

/-- `pyMaxBy` returns a list element whose key is maximal. -/
theorem pyMaxBy_spec {α : Type} (key : α → Int) (xs : List α) (x : α)
    (h : pyMaxBy key xs = some x) : x ∈ xs ∧ ∀ y ∈ xs, key y ≤ key x := by
  match xs, h with
  | a :: as, h =>
    simp only [pyMaxBy, Option.some.injEq] at h
    subst h
    obtain ⟨hmem, hle, hall⟩ := pyMaxBy_foldl_spec key as a
    constructor
    · rcases hmem with h | h
      · rw [h]
        exact List.mem_cons_self a as
      · exact List.mem_cons_of_mem _ h
    · intro y hy
      rcases List.mem_cons.mp hy with rfl | hy'
      · exact hle
      · exact hall y hy'

/-- The example series evaluates to a 10 percent yearly change: the
integer-valued steps evaluate by kernel reduction, and the final rational
formula `(220000 - 200000)/200000 * 100 = 10` by `norm_num`. -/
theorem hpiExample_eval : yearlyChangePercentage hpiExample = some (some 10) := by
  have h1 : yearlyChangePercentage hpiExample =
      some (some ((((220000 : Int) : ℚ) - ((200000 : Int) : ℚ)) /
        ((200000 : Int) : ℚ) * 100)) := rfl
  rw [h1]
  norm_num

set_option maxHeartbeats 1000000 in
/-- C5: on the spec's example the year-over-year change is 10; in general a
defined yearly change is computed from an Average date of maximal day number
and an Average date minimizing the absolute distance to 365 days before it,
as `(latest - closest)/closest * 100` with a positive closest value; and
whenever the closest value is not positive the change is reported as `None`. -/
theorem C5_yearly_change :
    (yearlyChangePercentage hpiExample = some (some 10)) ∧
    (∀ (price_data : List PriceEntry) (v : ℚ),
      yearlyChangePercentage price_data = some (some v) →
      ∃ recent closest,
        recent ∈ averageDates price_data ∧
        (∀ d2 ∈ averageDates price_data, d2.toDays ≤ recent.toDays) ∧
        closest ∈ averageDates price_data ∧
        (∀ d2 ∈ averageDates price_data,
          |closest.toDays - (recent.toDays - 365)| ≤
            |d2.toDays - (recent.toDays - 365)|) ∧
        0 < firstAveragePrice price_data closest ∧
        v = ((firstAveragePrice price_data recent : ℚ) -
            (firstAveragePrice price_data closest : ℚ)) /
          (firstAveragePrice price_data closest : ℚ) * 100) ∧
    (∀ (price_data : List PriceEntry) (recent closest : Date),
      pyMaxBy Date.toDays (averageDates price_data) = some recent →
      pyMinBy (fun d2 => |d2.toDays - (recent.toDays - 365)|)
        (averageDates price_data) = some closest →
      firstAveragePrice price_data closest ≤ 0 →
      yearlyChangePercentage price_data = some none) := by
  refine ⟨hpiExample_eval, ?_, ?_⟩
  · intro pd v h
    simp only [yearlyChangePercentage] at h
    split at h
    · exact absurd h (by simp)
    · rename_i recent hmax
      split at h
      · exact absurd h (by simp)
      · rename_i closest hmin
        split at h
        · rename_i hpos
          have hv := Option.some.inj (Option.some.inj h)
          obtain ⟨hmemR, hallR⟩ := pyMaxBy_spec Date.toDays _ recent hmax
          obtain ⟨hmemC, hallC⟩ :=
            pyMinBy_spec (fun d2 => |d2.toDays - (recent.toDays - 365)|) _
              closest hmin
          exact ⟨recent, closest, hmemR, hallR, hmemC, hallC, hpos, hv.symm⟩
        · exact absurd (Option.some.inj h) (by simp)
  · intro pd recent closest hmax hmin hle
    simp only [yearlyChangePercentage, hmax, hmin]
    rw [if_neg (not_lt.mpr hle)]

/-- Witness for C5: the general characterization applied to the example
series, whose change is 10. -/
theorem C5_witness :
    ∃ recent closest,
      recent ∈ averageDates hpiExample ∧
      (∀ d2 ∈ averageDates hpiExample, d2.toDays ≤ recent.toDays) ∧
      closest ∈ averageDates hpiExample ∧
      (∀ d2 ∈ averageDates hpiExample,
        |closest.toDays - (recent.toDays - 365)| ≤
          |d2.toDays - (recent.toDays - 365)|) ∧
      0 < firstAveragePrice hpiExample closest ∧
      (10 : ℚ) = ((firstAveragePrice hpiExample recent : ℚ) -
          (firstAveragePrice hpiExample closest : ℚ)) /
        (firstAveragePrice hpiExample closest : ℚ) * 100 :=
  C5_yearly_change.2.1 hpiExample 10 hpiExample_eval

/-- Zero-fuel is only reached with `1 ≤ m`, where the rollover loop would not
run: `normMonthGo` is then the identity on `(y, m)` for every fuel. -/
theorem normMonthGo_of_pos (f : Nat) (y m : Int) (h : 1 ≤ m) :
    normMonthGo f y m = (y, m) := by
  cases f with
  | zero => rfl
  | succ n =>
    simp only [normMonthGo]
    rw [if_neg (by omega)]

/-- Fuel irrelevance: any fuel at least `1 - m` computes the same result. -/
theorem normMonthGo_congr (f : Nat) : ∀ (g : Nat) (y m : Int),
    1 - m ≤ (f : Int) → 1 - m ≤ (g : Int) →
    normMonthGo f y m = normMonthGo g y m := by
  induction f with
  | zero =>
    intro g y m hf hg
    have hm : 1 ≤ m := by omega
    rw [normMonthGo_of_pos 0 y m hm, normMonthGo_of_pos g y m hm]
  | succ n ih =>
    intro g y m hf hg
    by_cases hm : m ≤ 0
    · cases g with
      | zero => exact absurd hg (by omega)
      | succ k =>
        simp only [normMonthGo]
        rw [if_pos hm, if_pos hm]
        exact ih k (y - 1) (m + 12) (by omega) (by omega)
    · have hm1 : 1 ≤ m := by omega
      rw [normMonthGo_of_pos (n + 1) y m hm1, normMonthGo_of_pos g y m hm1]

/-- `normMonth` satisfies the defining equation of the source's `while`
loop: the fuel `(1 - m).toNat` is always sufficient. -/
theorem normMonth_eq (y m : Int) :
    normMonth y m = if m ≤ 0 then normMonth (y - 1) (m + 12) else (y, m) := by
  by_cases hm : m ≤ 0
  · rw [if_pos hm]
    have h1 : (1 - m).toNat = (0 - m).toNat + 1 := by omega
    simp only [normMonth]
    rw [h1]
    simp only [normMonthGo]
    rw [if_pos hm]
    exact normMonthGo_congr ((0 - m).toNat) ((1 - (m + 12)).toNat) (y - 1) (m + 12)
      (by omega) (by omega)
  · rw [if_neg hm]
    exact normMonthGo_of_pos _ y m (by omega)

/-- For the months the 12-month loops feed it (`-10 ≤ m ≤ 12`), the rollover
produces a month in 1..12. -/
theorem normMonth_bounds (y m : Int) (h1 : -10 ≤ m) (h2 : m ≤ 12) :
    1 ≤ (normMonth y m).2 ∧ (normMonth y m).2 ≤ 12 := by
  by_cases hm : m ≤ 0
  · rw [normMonth_eq, if_pos hm, normMonth_eq, if_neg (by omega : ¬m + 12 ≤ 0)]
    exact ⟨by omega, by omega⟩
  · rw [normMonth_eq, if_neg hm]
    exact ⟨by omega, by omega⟩

/-- Folding month results with list extension equals flattening the
successful months' lists, in order. -/
theorem crime_fold_join {α β : Type} (res : β → MonthResult α) (l : List β) :
    ∀ acc, l.foldl (fun a s => match res s with
        | .ok cs => a ++ cs
        | .err _ _ => a) acc =
      acc ++ (l.filterMap (fun s => match res s with
        | .ok cs => some cs
        | .err _ _ => none)).join := by
  induction l with
  | nil => intro acc; simp
  | cons s l ih =>
    intro acc
    simp only [List.foldl_cons, List.filterMap_cons]
    cases hres : res s with
    | ok cs => simp [ih (acc ++ cs)]
    | err a b => simp [ih acc]

/-- Folding month results with keyed insertion equals filtering to the
successful months' `(month, list)` pairs, in order. -/
theorem monthly_fold_pairs {α β : Type} (g : β → String)
    (oracle : String → MonthResult α) (l : List β) :
    ∀ acc, l.foldl (fun a i => match oracle (g i) with
        | .ok cs => a ++ [(g i, cs)]
        | .err _ _ => a) acc =
      acc ++ l.filterMap (fun i => match oracle (g i) with
        | .ok cs => some (g i, cs)
        | .err _ _ => none) := by
  induction l with
  | nil => intro acc; simp
  | cons s l ih =>
    intro acc
    simp only [List.foldl_cons, List.filterMap_cons]
    cases hres : oracle (g s) with
    | ok cs => simp [ih (acc ++ [(g s, cs)])]
    | err a b => simp [ih acc]

/-- The no-date path of `get_crime_data` combines exactly the 12 requested
months' successful lists, in request order. -/
theorem get_crime_data_months {α : Type} (oracle : String → MonthResult α)
    (y m : Int) :
    get_crime_data oracle y m none =
      .inr (((monthStrs y m).filterMap (fun s => match oracle s with
        | .ok cs => some cs
        | .err _ _ => none)).join) := by
  simp only [get_crime_data, monthStrs, List.filterMap_map]
  congr 1
  exact (crime_fold_join (fun (i : Nat) => oracle
    (formatMonth (normMonth y (m - (i : Int))).1 (normMonth y (m - (i : Int))).2))
    (List.range 12) []).trans (by simp [Function.comp_def])

/-- `get_last_year_monthly_data` is the month-keyed filtering of the 12
requested months, in request order. -/
theorem get_last_year_monthly_eq {α : Type} (oracle : String → MonthResult α)
    (y m : Int) :
    get_last_year_monthly_data oracle y m =
      (monthStrs y m).filterMap (fun s => match oracle s with
        | .ok cs => some (s, cs)
        | .err _ _ => none) := by
  simp only [get_last_year_monthly_data, monthStrs, List.filterMap_map]
  exact (monthly_fold_pairs (fun (i : Nat) => formatMonth (normMonth y (m - (i : Int))).1
    (normMonth y (m - (i : Int))).2) oracle (List.range 12) []).trans
    (by simp [Function.comp_def])

/-- C6: from a fixed today of 2024-03-15 the two 12-month loops request
exactly the months 2024-03 down through 2023-04, zero-padded `YYYY-MM` with
the year rollover at 2024-01 → 2023-12; for every provider behaviour the
combined crime list is the flattening of the successful months' lists (an
errored month contributes nothing, is not retried, and is not surfaced), and
the monthly mapping keeps exactly the successful months keyed in request
order. -/
theorem C6_crime_month_iteration :
    monthStrs 2024 3 = ["2024-03", "2024-02", "2024-01", "2023-12", "2023-11",
      "2023-10", "2023-09", "2023-08", "2023-07", "2023-06", "2023-05",
      "2023-04"] ∧
    (monthStrs 2024 3).length = 12 ∧
    ∀ (α : Type) (oracle : String → MonthResult α),
      get_crime_data oracle 2024 3 none =
        .inr (((monthStrs 2024 3).filterMap (fun s => match oracle s with
          | .ok cs => some cs
          | .err _ _ => none)).join) ∧
      get_last_year_monthly_data oracle 2024 3 =
        (monthStrs 2024 3).filterMap (fun s => match oracle s with
          | .ok cs => some (s, cs)
          | .err _ _ => none) :=
  ⟨by decide, by decide, fun _ oracle =>
    ⟨get_crime_data_months oracle 2024 3, get_last_year_monthly_eq oracle 2024 3⟩⟩

/-- C10: for any current date with a valid month and any provider behaviour,
the monthly mapping equals the month-keyed filtering of the 12 requested
months, has at most 12 keys, maps each key to exactly the provider's list for
that month, and every key is a zero-padded `YYYY-MM` string with month
component between 1 and 12. -/
theorem C10_monthly_mapping {α : Type} (oracle : String → MonthResult α)
    (y m : Int) (h1 : 1 ≤ m) (h2 : m ≤ 12) :
    get_last_year_monthly_data oracle y m =
      (monthStrs y m).filterMap (fun s => match oracle s with
        | .ok cs => some (s, cs)
        | .err _ _ => none) ∧
    (get_last_year_monthly_data oracle y m).length ≤ 12 ∧
    ∀ p ∈ get_last_year_monthly_data oracle y m,
      oracle p.1 = .ok p.2 ∧
      ∃ y2 m2 : Int, 1 ≤ m2 ∧ m2 ≤ 12 ∧
        p.1 = toString y2 ++ "-" ++
          (if m2 < 10 then "0" ++ toString m2 else toString m2) := by
  have hEq := get_last_year_monthly_eq oracle y m
  refine ⟨hEq, ?_, ?_⟩
  · rw [hEq]
    calc ((monthStrs y m).filterMap _).length ≤ (monthStrs y m).length :=
          List.length_filterMap_le _ _
      _ = 12 := by simp [monthStrs]
  · intro p hp
    rw [hEq] at hp
    obtain ⟨s, hs, hpick⟩ := List.mem_filterMap.mp hp
    simp only [monthStrs, List.mem_map, List.mem_range] at hs
    obtain ⟨i, hi, hgi⟩ := hs
    cases ho : oracle s with
    | err a b =>
      rw [ho] at hpick
      exact absurd hpick (by simp)
    | ok cs =>
      rw [ho] at hpick
      have hp2 := Option.some.inj hpick
      subst hp2
      obtain ⟨hb1, hb2⟩ := normMonth_bounds y (m - (i : Int)) (by omega) (by omega)
      refine ⟨ho, (normMonth y (m - (i : Int))).1, (normMonth y (m - (i : Int))).2,
        hb1, hb2, ?_⟩
      rw [← hgi]
      rfl

/-- Witness for C10: a concrete oracle erroring on 2023-12 still yields a
mapping of at most 12 entries from today 2024-03. -/
theorem C10_witness :
    (1 : Int) ≤ 3 ∧
    (get_last_year_monthly_data
      (fun s => if s = "2023-12" then .err "boom" "d" else .ok [0])
      2024 3).length ≤ 12 :=
  ⟨by decide,
    (C10_monthly_mapping
      (fun s => if s = "2023-12" then .err "boom" "d" else .ok [0])
      2024 3 (by decide) (by decide)).2.1⟩

/-- Counterexample for C7: a provider result carrying a latitude but no
longitude produces a location record with exactly one of the two
coordinates. -/
theorem C7_counterexample :
    ∃ r, get_location_data "AB1" (.ok latOnlyResult) = .record r ∧
      r.latitude.isSome = true ∧ r.longitude.isSome = false :=
  ⟨_, rfl, rfl, rfl⟩

/-- C7 amended: `get_location_data` forwards provider errors, rejects a
missing `result` envelope, and otherwise passes the provider's latitude and
longitude through unchanged and independently; the both-or-neither invariant
therefore holds exactly when the provider's result itself satisfies it. -/
theorem C7_latlon_passthrough (postcode : String) (resp : PostcodeResponse) :
    (∀ msg, resp = .err msg → get_location_data postcode resp = .err msg) ∧
    (resp = .noResult →
      get_location_data postcode resp = .err "Unexpected API response format") ∧
    (∀ result, resp = .ok result →
      ∃ r, get_location_data postcode resp = .record r ∧
        r.latitude = result.latitude ∧ r.longitude = result.longitude ∧
        ((result.latitude.isSome ↔ result.longitude.isSome) →
          (r.latitude.isSome ↔ r.longitude.isSome))) := by
  refine ⟨?_, ?_, ?_⟩
  · intro msg h
    subst h
    rfl
  · intro h
    subst h
    rfl
  · intro result h
    subst h
    exact ⟨_, rfl, rfl, rfl, fun hsame => hsame⟩

/-- Witness for C7's amended theorem: a result with both coordinates passes
both through. -/
theorem C7_witness :
    ∃ r, get_location_data "AB1" (.ok bothCoordsResult) = .record r ∧
      r.latitude = bothCoordsResult.latitude ∧
      r.longitude = bothCoordsResult.longitude ∧
      ((bothCoordsResult.latitude.isSome ↔ bothCoordsResult.longitude.isSome) →
        (r.latitude.isSome ↔ r.longitude.isSome)) :=
  (C7_latlon_passthrough "AB1" (.ok bothCoordsResult)).2.2 bothCoordsResult rfl

/-- Counterexample for C8: with `max_retries = 1` and a first attempt that is
rate-limited, the loop's sole attempt is consumed by the 429 — the retry
never reaches the succeeding second attempt, and the call returns the
retry-exhaustion error instead of the JSON the claim's
no-decrement reading would produce (after the `Retry-After` fallback sleep of
`retry_delay * 2 = 2`). -/
theorem C8_counterexample :
    make_request rateLimitedThenOk 1 1 = (.maxRetriesReached, [2]) ∧
    (make_request rateLimitedThenOk 1 1).1 ≠ .json () := by
  constructor
  · rfl
  · decide

/-- C8 amended: an HTTP 429 never immediately returns an error — the function
sleeps for `Retry-After` (falling back to `retry_delay * 2`) and re-enters the
loop at the next attempt index, consuming one of the `max_retries` iterations;
any other non-200 status returns immediately with the status code and the
response body (defaulted when empty). -/
theorem C8_rate_limit_behavior {α : Type} (outcome : Nat → AttemptOutcome α)
    (max_retries retry_delay k attempt : Nat) (sleeps : List Nat)
    (r : HttpResponse α) (hout : outcome attempt = .response r) :
    (r.status = 429 →
      make_request_go outcome max_retries retry_delay (k + 1) attempt sleeps =
        make_request_go outcome max_retries retry_delay k (attempt + 1)
          (sleeps ++ [r.retryAfter.getD (retry_delay * 2)])) ∧
    (r.status ≠ 200 → r.status ≠ 429 →
      make_request_go outcome max_retries retry_delay (k + 1) attempt sleeps =
        (.statusError r.status
          (if r.body = "" then "No details available" else r.body), sleeps)) := by
  constructor
  · intro h429
    simp only [make_request_go, hout]
    rw [if_neg (by omega), if_pos h429]
  · intro h200 h429
    simp only [make_request_go, hout]
    rw [if_neg h200, if_neg h429]

/-- Witness for C8's amended theorem: the first 429 of `rateLimitedThenOk`
continues into the next attempt with the fallback sleep logged. -/
theorem C8_witness :
    rateLimitedThenOk 0 = .response ⟨429, none, "", ()⟩ ∧
    make_request_go rateLimitedThenOk 1 1 1 0 [] =
      make_request_go rateLimitedThenOk 1 1 0 1 [2] :=
  ⟨rfl,
    (C8_rate_limit_behavior rateLimitedThenOk 1 1 0 0 [] ⟨429, none, "", ()⟩ rfl).1 rfl⟩

/-- The attempt loop falls through to `{'error': 'Maximum retry attempts
reached'}` exactly when every remaining attempt continues the loop: a 429, or
a timeout on a non-final attempt. -/
theorem make_request_go_max_iff {α : Type} (outcome : Nat → AttemptOutcome α)
    (max_retries retry_delay : Nat) :
    ∀ (remaining attempt : Nat) (sleeps : List Nat),
      remaining = max_retries - attempt →
      ((make_request_go outcome max_retries retry_delay remaining attempt
          sleeps).1 = .maxRetriesReached ↔
        ∀ i, attempt ≤ i → i < max_retries →
          (is429 (outcome i) = true ∨
            (isTimeout (outcome i) = true ∧ i < max_retries - 1))) := by
  intro remaining
  induction remaining with
  | zero =>
    intro attempt sleeps hrem
    refine iff_of_true rfl ?_
    intro i hi1 hi2
    omega
  | succ k ih =>
    intro attempt sleeps hrem
    have hlt : attempt < max_retries := by omega
    simp only [make_request_go]
    cases hout : outcome attempt with
    | response r =>
      dsimp only
      by_cases h200 : r.status = 200
      · rw [if_pos h200]
        refine iff_of_false (by simp) ?_
        intro hall
        have := hall attempt le_rfl hlt
        rw [hout] at this
        simp [is429, isTimeout, h200] at this
      · rw [if_neg h200]
        by_cases h429 : r.status = 429
        · rw [if_pos h429]
          rw [ih (attempt + 1) (sleeps ++ [r.retryAfter.getD (retry_delay * 2)])
            (by omega)]
          constructor
          · intro hrest i hi1 hi2
            rcases Nat.eq_or_lt_of_le hi1 with hieq | higt
            · subst hieq
              rw [hout]
              simp [is429, h429]
            · exact hrest i higt hi2
          · intro hall i hi1 hi2
            exact hall i (by omega) hi2
        · rw [if_neg h429]
          refine iff_of_false (by simp) ?_
          intro hall
          have := hall attempt le_rfl hlt
          rw [hout] at this
          simp [is429, isTimeout, h429] at this
    | timeout =>
      dsimp only
      by_cases hlast : attempt < max_retries - 1
      · rw [if_pos hlast]
        rw [ih (attempt + 1) (sleeps ++ [retry_delay]) (by omega)]
        constructor
        · intro hrest i hi1 hi2
          rcases Nat.eq_or_lt_of_le hi1 with hieq | higt
          · subst hieq
            rw [hout]
            exact Or.inr ⟨rfl, hlast⟩
          · exact hrest i higt hi2
        · intro hall i hi1 hi2
          exact hall i (by omega) hi2
      · rw [if_neg hlast]
        refine iff_of_false (by simp) ?_
        intro hall
        have := hall attempt le_rfl hlt
        rw [hout] at this
        simp [is429, isTimeout] at this
        omega
    | requestError msg =>
      dsimp only
      refine iff_of_false (by simp) ?_
      intro hall
      have := hall attempt le_rfl hlt
      rw [hout] at this
      simp [is429, isTimeout] at this

/-- C9 amended: `make_request` returns the fall-through
`{'error': 'Maximum retry attempts reached'}` iff every one of the
`max_retries` attempts continued the loop — an HTTP 429, or a timeout on a
non-final attempt (a final-attempt timeout returns the timed-out error
instead) — in particular when `max_retries = 0` no attempt is made at all and
no sleep occurs. -/
theorem C9_retry_exhaustion {α : Type} (outcome : Nat → AttemptOutcome α)
    (max_retries retry_delay : Nat) :
    ((make_request outcome max_retries retry_delay).1 = .maxRetriesReached ↔
      ∀ i < max_retries,
        (is429 (outcome i) = true ∨
          (isTimeout (outcome i) = true ∧ i < max_retries - 1))) ∧
    (max_retries = 0 →
      make_request outcome max_retries retry_delay = (.maxRetriesReached, [])) := by
  constructor
  · have h := make_request_go_max_iff outcome max_retries retry_delay
      max_retries 0 [] (by omega)
    simpa using h
  · intro h
    subst h
    rfl

/-- Witness for C9's amended theorem: the timeout-then-429 run exhausts the
loop, by the equivalence applied at `max_retries = 2`. -/
theorem C9_witness :
    (make_request timeoutThen429 2 1).1 = .maxRetriesReached :=
  (C9_retry_exhaustion timeoutThen429 2 1).1.mpr (by decide)

/-- Counterexample for C9: the run whose first attempt times out and whose
second is rate-limited exhausts the loop into the generic retry-exhaustion
error even though not every attempt received a 429. -/
theorem C9_counterexample :
    (make_request timeoutThen429 2 1).1 = .maxRetriesReached ∧
    ¬(2 ≤ 0 ∨ ∀ i < 2, is429 (timeoutThen429 i) = true) := by
  constructor
  · rfl
  · decide

end PropertySearch
